import Mathlib

/-!
Verification development for the tagreader ODBC handlers
(`src/tagreader/odbc_handlers.py`).

The two backend classes `AspenHandlerODBC` and `PIHandlerODBC` are embedded
shallowly.  Pure query-building methods become Lean functions returning
`Except PyError (List String)` (the list of query fragments that the source
joins with `" "`); the `read_tag` methods become functions from the raw
backend result rows (execution of SQL is abstracted into a row-list / lookup
parameter) to the canonical output frame.  Machine details that no claim
touches are abstracted: timestamps are UTC epoch seconds (`Int`), `strftime`
is an injective rendering of the instant, numeric cells are `Int`.
-/

/-- The Python exceptions that the embedded code can raise, plus the
`TagNotFound` error named by the specification's error taxonomy (the source
under `src/` never raises it). -/
inductive PyError where
  | notImplementedError
  | typeError
  | indexError
  | valueError
  | attributeError
  | tagNotFound
deriving DecidableEq, Repr

/-- Modelled from the spec: the `ReaderType` enumeration lives in
`tagreader/utils.py`, which is not part of the provided sources.  The spec
(§2) lists the named variants RAW, SHAPEPRESERVING, INT, MIN, MAX, RNG, AVG,
VAR, STD, COUNT, GOOD, NOTGOOD, TOTAL, SUM, SAMPLED, SNAPSHOT.  Throughout
the spec SAMPLED and RAW name the same actual-recorded-data semantics (§4.2
assigns the request kind to SAMPLED while the period-filter rule is stated
for RAW; the Aspen builder in the source checks `SAMPLED` when zeroing the
interval and `RAW` when omitting the period filter, which is only coherent
when they denote one value), and BAD is the spec's alternative name for
NOTGOOD (§4.1 "BAD/NOTGOOD", §4.3 "BAD/NOTGOOD returns 100 −
percentage-good"; the Aspen unsupported-type guard in the source lists `BAD`
where the spec says "BAD/NOTGOOD").  So SAMPLED and BAD are aliases below. -/
inductive ReaderType where
  | RAW
  | SHAPEPRESERVING
  | INT
  | MIN
  | MAX
  | RNG
  | AVG
  | VAR
  | STD
  | COUNT
  | GOOD
  | NOTGOOD
  | TOTAL
  | SUM
  | SNAPSHOT
deriving DecidableEq, Repr

/-- Modelled from the spec: `SAMPLED` is the same reader type as `RAW`. -/
def ReaderType.SAMPLED : ReaderType := ReaderType.RAW

/-- Modelled from the spec: `BAD` is the same reader type as `NOTGOOD`. -/
def ReaderType.BAD : ReaderType := ReaderType.NOTGOOD

/-- Python `repr` of a string value as interpolated by `f"{x!r}"` for the
tag names and formatted timestamps appearing in the queries. -/
def pyRepr (x : String) : String := "'" ++ x ++ "'"

/-- Python `str.replace("*", "%")`: the pattern and the replacement are
single characters, so the replacement is character-wise. -/
def replaceStar (x : String) : String :=
  ⟨x.data.map (fun c => if c = '*' then '%' else c)⟩

/-- Python `" ".join(fragments)`. -/
def joinSp : List String → String
  | [] => ""
  | [x] => x
  | x :: xs => x ++ " " ++ joinSp xs

/-- Rendering of an `Optional[int]` into an f-string (`None` renders as
`"None"`, numbers as their decimal form). -/
def showOptInt : Option Int → String
  | none => "None"
  | some n => toString n

/-- `strftime` on a UTC instant, abstracted: no claim inspects the concrete
character format, so the instant is rendered by its epoch-second value. -/
def fmtTime (t : Int) : String := toString t

/-- One row of an Aspen map definition (`atmapdef`), as fetched by
`_get_mapdefs`.  Field values are the strings stored in the map record. -/
structure Mapdef where
  NAME : String
  MAP_IsDefault : String
  MAP_HistoryValue : String
  MAP_CurrentValue : String
  MAP_CurrentTimeStamp : String
  MAP_CurrentQuality : String
  MAP_Units : String
  MAP_Description : String
deriving DecidableEq, Repr

/-- One row of the mapping dictionary built by `_get_mapdef_for_search`
(the shape consumed by `_generate_query_search_tag`). -/
structure SearchMapdef where
  tagname : String
  MAP_DefinitionRecord : Option String
  MAP_Description : String
deriving DecidableEq, Repr

/-- The canonical output frame produced by `read_tag`: the datetime index
plus the named data columns, in order. -/
structure OutFrame where
  index : List Int
  columns : List (String × List Int)
deriving DecidableEq, Repr

/-- Python `str.lower()`, character-wise (mapping names are ASCII). -/
def pyLower (s : String) : String := ⟨s.data.map Char.toLower⟩

/-- Python `str.split(";")` on the character list: splitting at every
`';'`. -/
def splitSemi : List Char → List (List Char)
  | [] => [[]]
  | c :: cs =>
    if c = ';' then [] :: splitSemi cs
    else
      match splitSemi cs with
      | [] => [[c]]
      | p :: ps => (c :: p) :: ps

/-- `tag.split(";") if ";" in tag else (tag, None)` with tuple unpacking
into `(tagname, mapping)`: one part means `";"` was absent; two parts
unpack; any other number of parts makes the two-element unpacking raise
`ValueError`. -/
def splitTagMapping (tag : String) : Except PyError (String × Option String) :=
  match (splitSemi tag.data).map (fun l => (⟨l⟩ : String)) with
  | [a] => .ok (a, none)
  | [a, b] => .ok (a, some b)
  | _ => .error .valueError

namespace AspenHandlerODBC

/-- `AspenHandlerODBC.generate_read_query` (odbc_handlers.py lines 78-188),
up to the final `" ".join`: the `query` fragment list that the method
accumulates.  `mapdef = none` stands for both Python `None` and the empty
dict `{}` (`None` is replaced by `{}` on entry, and both are falsy at the
`if mapdef:` test).  `start`/`stop` are the optional UTC instants;
`secs` is `int(sample_time.total_seconds())` (whole seconds). -/
def generate_read_query_fragments (tag : String) (mapdef : Option Mapdef)
    (start stop : Option Int) (secs : Int) (read_type : ReaderType)
    (get_status : Bool) : Except PyError (List String) :=
  if [ReaderType.COUNT, ReaderType.GOOD, ReaderType.BAD, ReaderType.TOTAL,
      ReaderType.SUM, ReaderType.SHAPEPRESERVING].contains read_type then
    .error .notImplementedError
  else if get_status && read_type == ReaderType.SNAPSHOT then
    .error .notImplementedError
  else if read_type == ReaderType.SNAPSHOT && stop.isSome then
    .error .notImplementedError
  else
    -- request_num = {...}.get(read_type, 1); the stored SNAPSHOT entry is None
    let request_num : Option Int :=
      (List.lookup read_type
        [(ReaderType.SAMPLED, some 4), (ReaderType.SHAPEPRESERVING, some 3),
         (ReaderType.INT, some 7), (ReaderType.COUNT, some 0),
         (ReaderType.GOOD, some 0), (ReaderType.TOTAL, some 0),
         (ReaderType.NOTGOOD, some 0),
         (ReaderType.SNAPSHOT, none)]).getD (some 1)
    let from_column : String :=
      (List.lookup read_type
        [(ReaderType.SAMPLED, "history"), (ReaderType.SHAPEPRESERVING, "history"),
         (ReaderType.INT, "history"),
         (ReaderType.SNAPSHOT, "\"" ++ tag ++ "\"")]).getD "aggregates"
    let ts : String :=
      if from_column == "aggregates" then "ts_start"
      else if read_type == ReaderType.SNAPSHOT then
        (match mapdef with
         | none => "IP_INPUT_TIME"
         | some m => m.MAP_CurrentTimeStamp)
      else "ts"
    let value : String :=
      (List.lookup read_type
        [(ReaderType.MIN, "min"), (ReaderType.MAX, "max"), (ReaderType.RNG, "rng"),
         (ReaderType.AVG, "avg"), (ReaderType.VAR, "var"), (ReaderType.STD, "std"),
         (ReaderType.GOOD, "good"), (ReaderType.NOTGOOD, "ng"),
         (ReaderType.TOTAL, "sum"), (ReaderType.SUM, "sum"),
         (ReaderType.SNAPSHOT,
           match mapdef with
           | none => "IP_INPUT_VALUE"
           | some m => m.MAP_CurrentValue)]).getD "value"
    let status : String :=
      if read_type == ReaderType.SNAPSHOT then
        (match mapdef with
         | none => "IP_INPUT_QUALITY"
         | some m => m.MAP_CurrentQuality)
      else "status"
    let base : List String :=
      ["SELECT ISO8601(" ++ ts ++ ") AS \"time\", " ++ value ++ " AS \"value\""]
      ++ (if get_status then [", " ++ status ++ " AS \"status\""] else [])
      ++ ["FROM " ++ from_column]
    if read_type == ReaderType.SNAPSHOT then
      .ok base
    else
      match start, stop with
      | some st, some et =>
        -- seconds = int(...); SAMPLED forces 0, otherwise <= 0 raises
        if read_type != ReaderType.SAMPLED && secs ≤ 0 then
          .error .notImplementedError
        else
          let seconds : Int := if read_type == ReaderType.SAMPLED then 0 else secs
          .ok (base
            ++ ["WHERE name = " ++ pyRepr tag]
            ++ (match mapdef with
                | none => []
                | some m => ["AND FIELD_ID = FT(" ++ pyRepr m.MAP_HistoryValue ++ ")"])
            ++ (if read_type != ReaderType.RAW then
                  ["AND (period = " ++ toString (seconds * 10) ++ ")"]
                else [])
            ++ ["AND (request = " ++ showOptInt request_num ++ ")",
                "AND (ts BETWEEN " ++ pyRepr (fmtTime st) ++ " AND "
                  ++ pyRepr (fmtTime et) ++ ")",
                "ORDER BY ts"])
      | _, _ => .error .attributeError

/-- `AspenHandlerODBC.generate_read_query`: the fragments joined with
`" "` (line 188, `return " ".join(query)`). -/
def generate_read_query (tag : String) (mapdef : Option Mapdef)
    (start stop : Option Int) (secs : Int) (read_type : ReaderType)
    (get_status : Bool) : Except PyError String :=
  (generate_read_query_fragments tag mapdef start stop secs read_type
    get_status).map joinSp

/-- `AspenHandlerODBC._generate_query_get_mapdef_for_search`
(lines 199-213): the query that `search` issues after translating `*` to
`%` in the tag pattern. -/
def _generate_query_get_mapdef_for_search (tag : String) : String :=
  joinSp
    (["SELECT DISTINCT a.name as tagname, m.NAME, m.MAP_DefinitionRecord,",
      "m.MAP_IsDefault, m.MAP_Description, m.MAP_Units, m.MAP_Base, m.MAP_Range",
      "FROM all_records a",
      "LEFT JOIN atmapdef m ON a.definition = m.MAP_DefinitionRecord",
      "WHERE a.name"]
    ++ [if tag.data.contains '%' then "LIKE '" ++ tag ++ "'"
        else "='" ++ tag ++ "'"]
    ++ ["AND m.MAP_IsDefault = 'TRUE'"])

/-- `AspenHandlerODBC._generate_query_search_tag` (lines 229-240):
per-tag description query used by `search`; returns `none` when the record
has no associated mapping. -/
def _generate_query_search_tag (mapdef : SearchMapdef) (desc : Option String) :
    Option String :=
  match mapdef.MAP_DefinitionRecord with
  | none => none
  | some defrec =>
    some (joinSp
      (["SELECT \"" ++ mapdef.MAP_Description ++ "\"",
        "FROM " ++ defrec,
        "WHERE name = '" ++ mapdef.tagname ++ "'"]
      ++ (match desc with
          | none => []
          | some d => ["AND " ++ mapdef.MAP_Description ++ " like '" ++ d ++ "'"])))

/-- The query-text slice of `AspenHandlerODBC.search` (lines 275-282): a
`None` tag raises `ValueError`; otherwise `*` is translated to `%` and the
mapdef search query is generated (and then executed). -/
def search_generated_query (tag : Option String) : Except PyError String :=
  match tag with
  | none => .error .valueError
  | some t => .ok (_generate_query_get_mapdef_for_search (replaceStar t))

/-- `AspenHandlerODBC._get_specific_mapdef` (lines 261-266), applied to the
rows `mapdefs` that `_get_mapdefs(tagname)` fetched: the first mapping whose
name matches case-insensitively. -/
def _get_specific_mapdef (mapdefs : List Mapdef) (mapping : String) :
    Option Mapdef :=
  mapdefs.find? (fun m => pyLower m.NAME == pyLower mapping)

/-- `AspenHandlerODBC._get_default_mapdef` (lines 268-273): the first
mapping flagged as default. -/
def _get_default_mapdef (mapdefs : List Mapdef) : Option Mapdef :=
  mapdefs.find? (fun m => m.MAP_IsDefault == "TRUE")

/-- `AspenHandlerODBC._get_tag_unit` (lines 306-317).  `mapdefs` is the
result of `_get_mapdefs(tagname)`; `unitOf tagname col` abstracts executing
`SELECT name, "col" as engunit FROM "tagname"` and reading `engunit`
(`none` is a SQL NULL, which the falsy test turns into `""`).  When no
mapping matches, `mapdef` is Python `None` and the subscript
`mapdef['MAP_Units']` raises `TypeError`. -/
def _get_tag_unit (mapdefs : List Mapdef) (unitOf : String → String → Option String)
    (tag : String) : Except PyError String :=
  match splitTagMapping tag with
  | .error e => .error e
  | .ok (tagname, mapping) =>
    match (match mapping with
           | none => _get_default_mapdef mapdefs
           | some mp => _get_specific_mapdef mapdefs mp) with
    | none => .error .typeError
    | some m =>
      match unitOf tagname m.MAP_Units with
      | none => .ok ""
      | some u => .ok u

/-- One raw result row of an Aspen read query: the parsed `time` index entry
and the projected `value` (and, when requested, `status`) columns.  The
status column arrives as text and is cast with `astype(int)`; cells are
already integers in this model. -/
structure AspenRow where
  time : Int
  value : Int
  status : Int
deriving DecidableEq, Repr

/-- `AspenHandlerODBC.read_tag` (lines 336-368).  Query execution is
abstracted: `raw` is the row list the backend returned for the generated
query.  `fillna`, `astype(int)` and `tz_localize("UTC")` are identities on
the integer/epoch-second model. -/
def read_tag (mapdefs : List Mapdef) (tag : String) (start stop : Option Int)
    (secs : Int) (read_type : ReaderType) (get_status : Bool)
    (raw : List AspenRow) : Except PyError OutFrame :=
  match splitTagMapping tag with
  | .error e => .error e
  | .ok (cleantag, mapping) =>
    -- mapdef = dict(); if mapping is not None: mapdef = _get_specific_mapdef(...)
    let mapdef : Option Mapdef :=
      match mapping with
      | none => none
      | some mp => _get_specific_mapdef mapdefs mp
    match generate_read_query cleantag mapdef start stop secs read_type
      get_status with
    | .error e => .error e
    | .ok _query =>
      .ok ⟨raw.map (fun r => r.time),
           [(tag, raw.map (fun r => r.value))]
           ++ (if get_status then
                 [(tag ++ "::status", raw.map (fun r => r.status))]
               else [])⟩

end AspenHandlerODBC

namespace PIHandlerODBC

/-- `PIHandlerODBC.generate_search_query` (lines 409-420), up to the final
`" ".join`: the accumulated fragment list. -/
def generate_search_query_fragments (tag desc : Option String) : List String :=
  ["SELECT tag, descriptor as description FROM pipoint.pipoint2 WHERE"]
  ++ (match tag with
      | none => []
      | some t => ["tag LIKE '" ++ replaceStar t ++ "'"])
  ++ (if tag.isSome && desc.isSome then ["AND"] else [])
  ++ (match desc with
      | none => []
      | some d => ["descriptor LIKE '" ++ replaceStar d ++ "'"])

/-- `PIHandlerODBC.generate_search_query`: the fragments joined with
`" "` (line 420). -/
def generate_search_query (tag desc : Option String) : String :=
  joinSp (generate_search_query_fragments tag desc)

/-- The `source` lookup of `PIHandlerODBC.generate_read_query`
(lines 463-478): `{...}.get(read_type, "[piarchive]..[picomp2]")`. -/
def source (read_type : ReaderType) : String :=
  (List.lookup read_type
    [(ReaderType.INT, "[piarchive]..[piinterp2]"),
     (ReaderType.MIN, "[piarchive]..[pimin]"),
     (ReaderType.MAX, "[piarchive]..[pimax]"),
     (ReaderType.RNG, "[piarchive]..[pirange]"),
     (ReaderType.AVG, "[piarchive]..[piavg]"),
     (ReaderType.VAR, "[piarchive]..[pistd]"),
     (ReaderType.STD, "[piarchive]..[pistd]"),
     (ReaderType.GOOD, "[piarchive]..[picount]"),
     (ReaderType.NOTGOOD, "[piarchive]..[picount]"),
     (ReaderType.TOTAL, "[piarchive]..[pitotal]"),
     (ReaderType.SUM, "[piarchive]..[pitotal]"),
     (ReaderType.COUNT, "[piarchive]..[picount]"),
     (ReaderType.SNAPSHOT, "[piarchive]..[pisnapshot]"),
     (ReaderType.SHAPEPRESERVING, "[piarchive]..[piplot]")]).getD
    "[piarchive]..[picomp2]"

/-- The type-specific SELECT head of `PIHandlerODBC.generate_read_query`
(lines 480-489). -/
def select_head (maxRows : Int) (read_type : ReaderType) : String :=
  if read_type == ReaderType.VAR then
    "SELECT POWER(CAST(value as FLOAT32), 2)"
  else if read_type == ReaderType.GOOD then
    "SELECT CAST(pctgood as FLOAT32)"
  else if read_type == ReaderType.BAD then
    "SELECT 100-CAST(pctgood as FLOAT32)"
  else if read_type == ReaderType.RAW then
    "SELECT TOP " ++ toString maxRows ++ " CAST(value as FLOAT32)"
  else
    "SELECT CAST(value as FLOAT32)"

/-- `PIHandlerODBC.generate_read_query` (lines 422-522), up to the final
`" ".join`: the accumulated `query` fragment list.  `maxRows` is the
handler's `_max_rows` option; `secs` is
`int(sample_time.total_seconds())`. -/
def generate_read_query_fragments (maxRows : Int) (tag : String) (start stop : Option Int)
    (secs : Int) (read_type : ReaderType) (get_status : Bool) :
    Except PyError (List String) :=
  if [ReaderType.COUNT, ReaderType.GOOD, ReaderType.BAD, ReaderType.TOTAL,
      ReaderType.SUM, ReaderType.SHAPEPRESERVING].contains read_type then
    .error .notImplementedError
  else if read_type == ReaderType.SNAPSHOT && stop.isSome then
    .error .notImplementedError
  else if read_type == ReaderType.SNAPSHOT then
    .ok ([select_head maxRows read_type, "AS value,"]
      ++ (if get_status then ["status, questionable, substituted,"] else [])
      ++ ["time FROM " ++ source read_type ++ " WHERE tag='" ++ tag ++ "'"])
  else
    match start, stop with
    | some st, some et =>
      -- seconds = int(...); SAMPLED forces 0; otherwise <= 0 only hits
      -- `pass  # Fixme: Not implemented` and falls through
      let seconds : Int := if read_type == ReaderType.SAMPLED then 0 else secs
      .ok ([select_head maxRows read_type, "AS value,"]
        ++ (if get_status then ["status, questionable, substituted,"] else [])
        ++ ["time FROM " ++ source read_type ++ " WHERE tag='" ++ tag ++ "'"]
        ++ ["AND (time BETWEEN '" ++ fmtTime st ++ "' AND '" ++ fmtTime et
              ++ "')"]
        ++ (if read_type == ReaderType.GOOD then ["AND questionable = FALSE"]
            else if read_type == ReaderType.NOTGOOD then
              ["AND questionable = TRUE"]
            else if read_type == ReaderType.SHAPEPRESERVING then
              -- dead branch: SHAPEPRESERVING already raised above
              ["AND (intervalcount = " ++ toString ((et - st) / seconds) ++ ")"]
            else if read_type == ReaderType.RAW then []
            else ["AND (timestep = '" ++ toString seconds ++ "s')"])
        ++ ["ORDER BY time"])
    | _, _ => .error .attributeError

/-- `PIHandlerODBC.generate_read_query`: the fragments joined with `" "`
(line 522, `return " ".join(query)`). -/
def generate_read_query (maxRows : Int) (tag : String) (start stop : Option Int)
    (secs : Int) (read_type : ReaderType) (get_status : Bool) :
    Except PyError String :=
  (generate_read_query_fragments maxRows tag start stop secs read_type
    get_status).map joinSp

/-- `PIHandlerODBC._is_summary` (lines 563-574). -/
def _is_summary (read_type : ReaderType) : Bool :=
  [ReaderType.AVG, ReaderType.MIN, ReaderType.MAX, ReaderType.RNG,
   ReaderType.STD, ReaderType.VAR].contains read_type

/-- The PI point metadata returned by `_get_tag_metadata` that `read_tag`
consumes: only the digital-set name matters for normalization. -/
structure PIMeta where
  digitalset : String
deriving DecidableEq, Repr

/-- One raw result row of a PI read query: `value`, the three status
columns (present in the frame only when status was requested; ignored by
the model otherwise) and the parsed `time` index entry. -/
structure PIRow where
  time : Int
  value : Int
  status : Int
  questionable : Int
  substituted : Int
deriving DecidableEq, Repr

/-- `df.replace(code, offset)` at a single cell: the first matching
digital-set code is replaced by its offset; other values are unchanged. -/
def pids_replace (pids : List (Int × Int)) (x : Int) : Int :=
  match pids.find? (fun p => p.1 == x) with
  | none => x
  | some p => p.2

/-- `df.replace(code, offset)` on a whole row: applied to every data
column; the index (`time`) is not a column and is untouched. -/
def row_replace (pids : List (Int × Int)) (r : PIRow) : PIRow :=
  ⟨r.time, pids_replace pids r.value, pids_replace pids r.status,
   pids_replace pids r.questionable, pids_replace pids r.substituted⟩

/-- Lines 601-606 of `PIHandlerODBC.read_tag`: for summary reads the index
is shifted by `-sample_time` and the first row's (shifted) label is
dropped; `df.index[0]` on an empty frame raises `IndexError`. -/
def normalize_summary_index (read_type : ReaderType) (secs : Int)
    (raw : List PIRow) : Except PyError (List PIRow) :=
  if _is_summary read_type then
    match raw with
    | [] => .error .indexError
    | r0 :: _ =>
      let shifted := raw.map (fun r => { r with time := r.time - secs })
      .ok (shifted.filter (fun r => r.time != r0.time - secs))
  else .ok raw

/-- The composite status code of lines 619-627:
`questionable + 2 * (status != 0) + 4 * substituted`. -/
def composite_status (questionable status substituted : Int) : Int :=
  questionable + 2 * (if status ≠ 0 then 1 else 0) + 4 * substituted

/-- `PIHandlerODBC.read_tag` (lines 576-629).  Query execution is
abstracted: `raw` is the row list the backend returned for the generated
query, and `pids` the `(code, offset)` rows of the digital-set query.
`fillna` and `tz_localize("UTC")` are identities on the model. -/
def read_tag (maxRows : Int) (metadata : Option PIMeta)
    (pids : List (Int × Int)) (tag : String) (start stop : Option Int)
    (secs : Int) (read_type : ReaderType) (get_status : Bool)
    (raw : List PIRow) : Except PyError OutFrame :=
  match metadata with
  | none => .ok ⟨[], []⟩
  | some md =>
    match generate_read_query maxRows tag start stop secs read_type
      get_status with
    | .error e => .error e
    | .ok _query =>
      match normalize_summary_index read_type secs raw with
      | .error e => .error e
      | .ok df0 =>
        let df := if md.digitalset.length > 0 then df0.map (row_replace pids)
                  else df0
        if get_status then
          .ok ⟨df.map (fun r => r.time),
               [(tag, df.map (fun r => r.value)),
                (tag ++ "::status",
                 df.map (fun r =>
                   composite_status r.questionable r.status r.substituted))]⟩
        else
          .ok ⟨df.map (fun r => r.time), [(tag, df.map (fun r => r.value))]⟩

end PIHandlerODBC

/-! ## Helper lemmas -/

theorem strData_append (a b : String) : (a ++ b).data = a.data ++ b.data := rfl

theorem str_ne_of_take (k : Nat) {a b : String}
    (h : a.data.take k ≠ b.data.take k) : a ≠ b :=
  fun e => h (by rw [e])

theorem star_not_mem_replaceStar (p : String) :
    '*' ∉ (replaceStar p).data := by
  simp only [replaceStar, List.mem_map, not_exists]
  intro c hc
  obtain ⟨-, hc2⟩ := hc
  by_cases h : c = '*'
  · subst h; simp at hc2
  · simp only [if_neg h] at hc2
    exact h hc2

theorem percent_mem_replaceStar {p : String} (hp : '*' ∈ p.data) :
    '%' ∈ (replaceStar p).data := by
  simp only [replaceStar, List.mem_map]
  exact ⟨'*', hp, rfl⟩

theorem star_free_append {a b : String} (ha : '*' ∉ a.data)
    (hb : '*' ∉ b.data) : '*' ∉ (a ++ b).data := by
  rw [strData_append]
  simp only [List.mem_append]
  rintro (h | h)
  · exact ha h
  · exact hb h

theorem star_free_joinSp :
    ∀ l : List String, (∀ x ∈ l, '*' ∉ x.data) → '*' ∉ (joinSp l).data
  | [], _ => by simp [joinSp]
  | [x], h => by simpa [joinSp] using h x (by simp)
  | x :: y :: ys, h => by
    have hx : '*' ∉ x.data := h x (by simp)
    have hsp : '*' ∉ " ".data := by decide
    have hrest : '*' ∉ (joinSp (y :: ys)).data :=
      star_free_joinSp (y :: ys) (fun z hz => h z (by simp [hz]))
    show '*' ∉ (x ++ " " ++ joinSp (y :: ys)).data
    exact star_free_append (star_free_append hx hsp) hrest

/-! ## Claim C1 -/

/-- C1 (counterexample): the claim says the PI query builder returns query
text for `ReaderType.GOOD` (sourced from the count function) rather than
failing; at this concrete input it raises `NotImplementedError` instead. -/
theorem c1_counterexample :
    PIHandlerODBC.generate_read_query 100000 "TAG1" (some 0) (some 3600) 60
      ReaderType.GOOD false = .error .notImplementedError := rfl

/-- C1 (amended): for every PI read request with ReaderType GOOD, NOTGOOD,
COUNT, TOTAL, SUM or SHAPEPRESERVING, `generate_read_query` raises
`NotImplementedError` before the source lookup is consulted; the lookup
itself does map GOOD/NOTGOOD/COUNT to the count function, TOTAL/SUM to the
total function and SHAPEPRESERVING to the plot-preserving function, but it
is unreachable for these reader types. -/
theorem c1_pi_unsupported_types_raise (maxRows : Int) (tag : String)
    (start stop : Option Int) (secs : Int) (get_status : Bool) :
    (PIHandlerODBC.generate_read_query maxRows tag start stop secs
       ReaderType.GOOD get_status = .error .notImplementedError)
  ∧ (PIHandlerODBC.generate_read_query maxRows tag start stop secs
       ReaderType.NOTGOOD get_status = .error .notImplementedError)
  ∧ (PIHandlerODBC.generate_read_query maxRows tag start stop secs
       ReaderType.COUNT get_status = .error .notImplementedError)
  ∧ (PIHandlerODBC.generate_read_query maxRows tag start stop secs
       ReaderType.TOTAL get_status = .error .notImplementedError)
  ∧ (PIHandlerODBC.generate_read_query maxRows tag start stop secs
       ReaderType.SUM get_status = .error .notImplementedError)
  ∧ (PIHandlerODBC.generate_read_query maxRows tag start stop secs
       ReaderType.SHAPEPRESERVING get_status = .error .notImplementedError)
  ∧ PIHandlerODBC.source ReaderType.GOOD = "[piarchive]..[picount]"
  ∧ PIHandlerODBC.source ReaderType.NOTGOOD = "[piarchive]..[picount]"
  ∧ PIHandlerODBC.source ReaderType.COUNT = "[piarchive]..[picount]"
  ∧ PIHandlerODBC.source ReaderType.TOTAL = "[piarchive]..[pitotal]"
  ∧ PIHandlerODBC.source ReaderType.SUM = "[piarchive]..[pitotal]"
  ∧ PIHandlerODBC.source ReaderType.SHAPEPRESERVING = "[piarchive]..[piplot]"
  := ⟨rfl, rfl, rfl, rfl, rfl, rfl, rfl, rfl, rfl, rfl, rfl, rfl⟩

/-! ## Claim C4 -/

/-- C4 (code bug exhibited): with a zero-second sample interval and the
aggregate ReaderType AVG, the Aspen builder raises `NotImplementedError`,
but the PI builder falls through its `pass  # Fixme: Not implemented`
branch and returns a query with the degenerate filter `timestep = '0s'`
instead of raising. -/
theorem c4_pi_accepts_nonpositive_interval :
    (AspenHandlerODBC.generate_read_query "TAG1" none (some 0) (some 3600) 0
       ReaderType.AVG false = .error .notImplementedError)
  ∧ (PIHandlerODBC.generate_read_query 100000 "TAG1" (some 0) (some 3600) 0
       ReaderType.AVG false
     = .ok ("SELECT CAST(value as FLOAT32) AS value, "
         ++ "time FROM [piarchive]..[piavg] WHERE tag='TAG1' "
         ++ "AND (time BETWEEN '0' AND '3600') "
         ++ "AND (timestep = '0s') ORDER BY time"))
  ∧ (AspenHandlerODBC.generate_read_query "TAG1" none (some 0) (some 3600)
       (-5) ReaderType.MIN false = .error .notImplementedError) := by
  refine ⟨rfl, ?_, rfl⟩
  rfl

/-! ## Claim C5 -/

/-- C5: on both backends, a SNAPSHOT read with a present stop time raises
`NotImplementedError` and never produces query text. -/
theorem c5_snapshot_with_stop_raises (maxRows : Int) (tag : String)
    (mapdef : Option Mapdef) (start : Option Int) (et : Int) (secs : Int)
    (get_status : Bool) :
    (AspenHandlerODBC.generate_read_query tag mapdef start (some et) secs
       ReaderType.SNAPSHOT get_status = .error .notImplementedError)
  ∧ (PIHandlerODBC.generate_read_query maxRows tag start (some et) secs
       ReaderType.SNAPSHOT get_status = .error .notImplementedError) := by
  constructor
  · cases get_status <;> rfl
  · rfl

/-! ## Claim C6 -/

/-- C6 (code bug exhibited): an empty backend result is returned as an
empty canonical series by the Aspen handler and by the PI handler for
non-summary reads, but for a PI summary read (here AVG) the first-row drop
`df.drop(df.index[0])` hits an empty index and raises `IndexError`. -/
theorem c6_empty_result_summary_crash :
    (AspenHandlerODBC.read_tag [] "TAG1" (some 0) (some 3600) 60
       ReaderType.INT false [] = .ok ⟨[], [("TAG1", [])]⟩)
  ∧ (PIHandlerODBC.read_tag 100000 (some ⟨""⟩) [] "TAG1" (some 0) (some 3600)
       60 ReaderType.RAW false [] = .ok ⟨[], [("TAG1", [])]⟩)
  ∧ (PIHandlerODBC.read_tag 100000 (some ⟨""⟩) [] "TAG1" (some 0) (some 3600)
       60 ReaderType.AVG false [] = .error .indexError)
  := ⟨rfl, rfl, rfl⟩

/-! ## Claim C8 -/

/-- C8 (counterexample): when no mapping matches (here the tag asks for
mapping `MapB` but only `MapA` exists), `_get_tag_unit` fails with the
`TypeError` of subscripting the absent (Python `None`) mapping, not with
the tag-not-found error the claim names. -/
theorem c8_counterexample :
    (AspenHandlerODBC._get_tag_unit
       [⟨"MapA", "FALSE", "histval", "curval", "curts", "curq", "unit_col",
         "desc_col"⟩]
       (fun _ _ => some "degC") "TAG1;MapB" = .error .typeError)
  ∧ PyError.typeError ≠ PyError.tagNotFound := ⟨rfl, by decide⟩

/-- C8 (amended): for a tag `base;mappingName` the resolution selects the
first mapping whose name matches case-insensitively, for a suffix-free tag
the first mapping flagged default; when no mapping matches, resolution
fails — but with the `TypeError` raised by subscripting the absent mapping
rather than a tag-not-found error. -/
theorem c8_mapping_resolution (mapdefs : List Mapdef)
    (unitOf : String → String → Option String) (tag base : String) :
    (∀ mname m, splitTagMapping tag = .ok (base, some mname) →
       AspenHandlerODBC._get_specific_mapdef mapdefs mname = some m →
       AspenHandlerODBC._get_tag_unit mapdefs unitOf tag
         = .ok ((unitOf base m.MAP_Units).getD ""))
  ∧ (∀ m, splitTagMapping tag = .ok (base, none) →
       AspenHandlerODBC._get_default_mapdef mapdefs = some m →
       AspenHandlerODBC._get_tag_unit mapdefs unitOf tag
         = .ok ((unitOf base m.MAP_Units).getD ""))
  ∧ (∀ mname, splitTagMapping tag = .ok (base, some mname) →
       AspenHandlerODBC._get_specific_mapdef mapdefs mname = none →
       AspenHandlerODBC._get_tag_unit mapdefs unitOf tag
         = .error .typeError)
  ∧ (splitTagMapping tag = .ok (base, none) →
       AspenHandlerODBC._get_default_mapdef mapdefs = none →
       AspenHandlerODBC._get_tag_unit mapdefs unitOf tag
         = .error .typeError)
  ∧ (∀ mname m, AspenHandlerODBC._get_specific_mapdef mapdefs mname = some m →
       pyLower m.NAME = pyLower mname)
  ∧ (∀ m, AspenHandlerODBC._get_default_mapdef mapdefs = some m →
       m.MAP_IsDefault = "TRUE") := by
  refine ⟨?_, ?_, ?_, ?_, ?_, ?_⟩
  · intro mname m hsplit hsel
    simp only [AspenHandlerODBC._get_tag_unit, hsplit, hsel]
    cases unitOf base m.MAP_Units <;> rfl
  · intro m hsplit hsel
    simp only [AspenHandlerODBC._get_tag_unit, hsplit, hsel]
    cases unitOf base m.MAP_Units <;> rfl
  · intro mname hsplit hsel
    simp only [AspenHandlerODBC._get_tag_unit, hsplit, hsel]
  · intro hsplit hsel
    simp only [AspenHandlerODBC._get_tag_unit, hsplit, hsel]
  · intro mname m hsel
    have := List.find?_some hsel
    simpa using this
  · intro m hsel
    have := List.find?_some hsel
    simpa using this

/-- C8 (witness): the amended theorem applied at a concrete input — a
single non-default mapping `MyMap` is selected by the differently-cased
suffix `MYMAP` and its units column is consulted. -/
theorem c8_witness :
    (splitTagMapping "T;MYMAP" = .ok ("T", some "MYMAP"))
  ∧ ( AspenHandlerODBC._get_specific_mapdef
       [⟨"MyMap", "FALSE", "h", "cv", "ct", "cq", "u_col", "d_col"⟩] "MYMAP"
     = some ⟨"MyMap", "FALSE", "h", "cv", "ct", "cq", "u_col", "d_col"⟩)
  ∧ (AspenHandlerODBC._get_tag_unit
       [⟨"MyMap", "FALSE", "h", "cv", "ct", "cq", "u_col", "d_col"⟩]
       (fun _ _ => some "degC") "T;MYMAP" = .ok "degC") :=
  ⟨rfl, rfl, by
    exact (c8_mapping_resolution
      [⟨"MyMap", "FALSE", "h", "cv", "ct", "cq", "u_col", "d_col"⟩]
      (fun _ _ => some "degC") "T;MYMAP" "T").1 "MYMAP"
      ⟨"MyMap", "FALSE", "h", "cv", "ct", "cq", "u_col", "d_col"⟩ rfl rfl⟩

/-! ## Claim C3 -/

/-- C3: for every PI read with status requested (shown for every reader
type that reaches normalization, with an empty digital set so that only the
status computation acts), the three raw columns are replaced by the single
composite code `questionable + 2 * (status != 0) + 4 * substituted`, the
questionable and substituted columns are dropped, and the two concrete
bit-packing examples evaluate to 1 and 6. -/
theorem c3_composite_status (maxRows : Int) (pids : List (Int × Int))
    (tag : String) (st et secs : Int) (read_type : ReaderType)
    (raw : List PIHandlerODBC.PIRow)
    (h1 : read_type ∈ [ReaderType.RAW, ReaderType.INT, ReaderType.AVG,
        ReaderType.MIN, ReaderType.MAX, ReaderType.RNG, ReaderType.STD,
        ReaderType.VAR])
    (h2 : raw ≠ []) :
    (∃ rows, PIHandlerODBC.normalize_summary_index read_type secs raw = .ok rows
      ∧ PIHandlerODBC.read_tag maxRows (some ⟨""⟩) pids tag (some st) (some et)
          secs read_type true raw
        = .ok ⟨rows.map (fun r => r.time),
               [(tag, rows.map (fun r => r.value)),
                (tag ++ "::status",
                 rows.map (fun r => PIHandlerODBC.composite_status
                   r.questionable r.status r.substituted))]⟩)
  ∧ PIHandlerODBC.composite_status 1 0 0 = 1
  ∧ PIHandlerODBC.composite_status 0 7 1 = 6 := by
  refine ⟨?_, rfl, rfl⟩
  obtain ⟨r0, rest, rfl⟩ := List.exists_cons_of_ne_nil h2
  simp only [List.mem_cons, List.not_mem_nil, or_false] at h1
  rcases h1 with rfl | rfl | rfl | rfl | rfl | rfl | rfl | rfl <;>
    exact ⟨_, rfl, rfl⟩

/-- C3 (witness): the theorem applied at a concrete input — one RAW row
with `questionable = 0`, `status = 7`, `substituted = 1` produces the
composite status 6. -/
theorem c3_witness :
    (([⟨5, 9, 7, 0, 1⟩] : List PIHandlerODBC.PIRow) ≠ [])
  ∧ ((∃ rows,
        PIHandlerODBC.normalize_summary_index ReaderType.RAW 60
          [⟨5, 9, 7, 0, 1⟩] = .ok rows
        ∧ PIHandlerODBC.read_tag 100000 (some ⟨""⟩) [] "T" (some 0) (some 100)
            60 ReaderType.RAW true [⟨5, 9, 7, 0, 1⟩]
          = .ok ⟨rows.map (fun r => r.time),
                 [("T", rows.map (fun r => r.value)),
                  ("T" ++ "::status",
                   rows.map (fun r => PIHandlerODBC.composite_status
                     r.questionable r.status r.substituted))]⟩)
     ∧ PIHandlerODBC.composite_status 1 0 0 = 1
     ∧ PIHandlerODBC.composite_status 0 7 1 = 6) :=
  ⟨by decide, c3_composite_status 100000 [] "T" 0 100 60 ReaderType.RAW
    [⟨5, 9, 7, 0, 1⟩] (by decide) (by decide)⟩

/-! ## Claim C10 -/

theorem pi_read_tag_status_ds (maxRows : Int) (pids : List (Int × Int))
    (tag : String) (start stop : Option Int) (secs : Int)
    (read_type : ReaderType) (md : PIHandlerODBC.PIMeta)
    (raw df : List PIHandlerODBC.PIRow) (q : String)
    (hq : PIHandlerODBC.generate_read_query maxRows tag start stop secs
            read_type true = .ok q)
    (hn : PIHandlerODBC.normalize_summary_index read_type secs raw = .ok df)
    (hds : 0 < md.digitalset.length) :
    PIHandlerODBC.read_tag maxRows (some md) pids tag start stop secs
      read_type true raw
    = .ok ⟨df.map (fun r => r.time),
           [(tag, df.map (fun r => PIHandlerODBC.pids_replace pids r.value)),
            (tag ++ "::status",
             df.map (fun r => PIHandlerODBC.composite_status
               (PIHandlerODBC.pids_replace pids r.questionable)
               (PIHandlerODBC.pids_replace pids r.status)
               (PIHandlerODBC.pids_replace pids r.substituted)))]⟩ := by
  simp only [PIHandlerODBC.read_tag, hq, hn, if_pos hds, List.map_map]
  simp [Function.comp_def, PIHandlerODBC.row_replace]

/-- C10: for every PI read of a tag with a non-empty digital set and status
requested (shown for the non-summary reader types RAW and INT, where the
normalizer passes rows through unshifted), the code-to-offset substitution
is applied to every data column — value, status, questionable and
substituted — and the composite status is computed from the substituted
values; the index is not substituted. -/
theorem c10_substitution_before_status (maxRows : Int)
    (pids : List (Int × Int)) (ds tag : String) (st et secs : Int)
    (read_type : ReaderType) (raw : List PIHandlerODBC.PIRow)
    (h1 : read_type ∈ [ReaderType.RAW, ReaderType.INT])
    (h2 : 0 < ds.length) :
    PIHandlerODBC.read_tag maxRows (some ⟨ds⟩) pids tag (some st) (some et)
      secs read_type true raw
    = .ok ⟨raw.map (fun r => r.time),
           [(tag, raw.map (fun r => PIHandlerODBC.pids_replace pids r.value)),
            (tag ++ "::status",
             raw.map (fun r => PIHandlerODBC.composite_status
               (PIHandlerODBC.pids_replace pids r.questionable)
               (PIHandlerODBC.pids_replace pids r.status)
               (PIHandlerODBC.pids_replace pids r.substituted)))]⟩ := by
  simp only [List.mem_cons, List.not_mem_nil, or_false] at h1
  rcases h1 with rfl | rfl <;>
    exact pi_read_tag_status_ds _ _ _ _ _ _ _ _ raw raw _ rfl rfl h2

/-- C10 (witness): the theorem applied at a concrete input — the digital
set maps code 7 to offset 0, so the raw status 7 is substituted to 0 before
the composite computation, which then yields `0 + 2*0 + 4*1 = 4`. -/
theorem c10_witness :
    (0 < "ds".length)
  ∧ (PIHandlerODBC.read_tag 100000 (some ⟨"ds"⟩) [(7, 0)] "T" (some 0)
       (some 100) 60 ReaderType.RAW true [⟨5, 9, 7, 0, 1⟩]
     = .ok ⟨[5], [("T", [9]), ("T::status", [4])]⟩) :=
  ⟨by decide, by
    have h := c10_substitution_before_status 100000 [(7, 0)] "ds" "T" 0 100 60
      ReaderType.RAW [⟨5, 9, 7, 0, 1⟩] (by decide) (by decide)
    simpa using h⟩

/-! ## Claim C2 -/

theorem normalize_summary_range (read_type : ReaderType)
    (hrt : PIHandlerODBC._is_summary read_type = true)
    (m : Nat) (t d : Int) (h3 : 0 < d) (g : Nat → PIHandlerODBC.PIRow)
    (hg : ∀ i, (g i).time = t + d * (↑i + 1)) :
    PIHandlerODBC.normalize_summary_index read_type d
      ((List.range (m + 1)).map g)
    = .ok ((((List.range (m + 1)).map g).map
        (fun r => { r with time := r.time - d })).tail) := by
  rw [List.range_succ_eq_map]
  simp only [PIHandlerODBC.normalize_summary_index, hrt, if_true,
    List.map_cons, List.map_map, List.filter_cons, List.tail_cons]
  have hhead : ((({ g 0 with time := (g 0).time - d } : PIHandlerODBC.PIRow)).time
      != (g 0).time - d) = false := by
    simp
  rw [hhead]
  simp only [Bool.false_eq_true, if_false]
  rw [List.filter_eq_self.mpr]
  intro r hr
  simp only [List.mem_map, Function.comp] at hr
  obtain ⟨i, _, rfl⟩ := hr
  simp only [bne_iff_ne, ne_eq]
  simp only [hg]
  intro heq
  have h4 : 0 < d * (↑i + 1) := by positivity
  have h5 : (t + d * (↑(Nat.succ i) + 1)) - d = t + d * (↑i + 1) := by
    push_cast
    ring
  rw [h5] at heq
  omega

theorem pi_read_tag_plain (maxRows : Int) (pids : List (Int × Int))
    (tag : String) (start stop : Option Int) (secs : Int)
    (read_type : ReaderType) (raw df : List PIHandlerODBC.PIRow) (q : String)
    (hq : PIHandlerODBC.generate_read_query maxRows tag start stop secs
            read_type false = .ok q)
    (hn : PIHandlerODBC.normalize_summary_index read_type secs raw = .ok df) :
    PIHandlerODBC.read_tag maxRows (some ⟨""⟩) pids tag start stop secs
      read_type false raw
    = .ok ⟨df.map (fun r => r.time), [(tag, df.map (fun r => r.value))]⟩ := by
  simp only [PIHandlerODBC.read_tag, hq, hn]
  simp

/-- C2: for every PI read with a summary ReaderType (AVG, MIN, MAX, RNG,
STD, VAR), a positive sample interval `d` and a non-empty backend result
whose rows are timestamped at the end of each interval
(`t + d, t + 2d, ...`), the normalizer shifts every index entry by `-d` —
re-anchoring the series at `t, t + d, ...` — and removes the first row,
which now lies before the requested range; the value column loses its
first entry correspondingly. -/
theorem c2_summary_anchor_shift (maxRows : Int) (pids : List (Int × Int))
    (tag : String) (st et : Int) (n : Nat) (t d : Int)
    (v s q b : Nat → Int) (read_type : ReaderType)
    (h1 : read_type ∈ [ReaderType.AVG, ReaderType.MIN, ReaderType.MAX,
        ReaderType.RNG, ReaderType.STD, ReaderType.VAR])
    (h2 : 1 ≤ n) (h3 : 0 < d) :
    PIHandlerODBC.read_tag maxRows (some ⟨""⟩) pids tag (some st) (some et) d
      read_type false
      ((List.range n).map
        (fun i => ⟨t + d * (↑i + 1), v i, s i, q i, b i⟩))
    = .ok ⟨(((List.range n).map (fun i => t + d * (↑i + 1))).map
              (fun x => x - d)).tail,
           [(tag, ((List.range n).map v).tail)]⟩ := by
  obtain ⟨m, rfl⟩ : ∃ m, n = m + 1 := ⟨n - 1, (Nat.succ_pred_eq_of_pos h2).symm⟩
  have hrt : PIHandlerODBC._is_summary read_type = true := by
    simp only [List.mem_cons, List.not_mem_nil, or_false] at h1
    rcases h1 with rfl | rfl | rfl | rfl | rfl | rfl <;> rfl
  have hnorm := normalize_summary_range read_type hrt m t d h3
    (fun i => ⟨t + d * (↑i + 1), v i, s i, q i, b i⟩) (fun i => rfl)
  have hq : ∃ qq, PIHandlerODBC.generate_read_query maxRows tag (some st)
      (some et) d read_type false = .ok qq := by
    simp only [List.mem_cons, List.not_mem_nil, or_false] at h1
    rcases h1 with rfl | rfl | rfl | rfl | rfl | rfl <;> exact ⟨_, rfl⟩
  obtain ⟨qq, hq⟩ := hq
  rw [pi_read_tag_plain maxRows pids tag (some st) (some et) d read_type _ _ qq
    hq hnorm]
  rw [List.range_succ_eq_map]
  simp only [List.map_cons, List.map_map, List.tail_cons]
  rfl

/-- C2 (witness): the theorem applied at a concrete input — two AVG rows
end-anchored at 60 and 120 with interval 60 normalize to the single
start-anchored row at 60 carrying the second value. -/
theorem c2_witness :
    (1 ≤ 2) ∧ ((0 : Int) < 60)
  ∧ (PIHandlerODBC.read_tag 100000 (some ⟨""⟩) [] "T" (some 0) (some 120) 60
       ReaderType.AVG false [⟨60, 0, 0, 0, 0⟩, ⟨120, 1, 1, 1, 1⟩]
     = .ok ⟨[60], [("T", [1])]⟩) :=
  ⟨by decide, by decide, by
    have h := c2_summary_anchor_shift 100000 [] "T" 0 120 2 0 60
      (fun i => ↑i) (fun i => ↑i) (fun i => ↑i) (fun i => ↑i)
      ReaderType.AVG (by decide) (by decide) (by decide)
    simpa using h⟩

/-! ## Claim C7 -/

theorem take8_period (x : String) :
    ("AND (period = " ++ x ++ ")").data.take 8 = "AND (per".data := rfl

theorem take8_where (x : String) :
    ("WHERE name = " ++ x).data.take 8 = "WHERE na".data := rfl

theorem take8_field (x : String) :
    ("AND FIELD_ID = FT(" ++ x ++ ")").data.take 8 = "AND FIEL".data := rfl

theorem take8_between (x y : String) :
    ("AND (ts BETWEEN " ++ x ++ " AND " ++ y ++ ")").data.take 8
    = "AND (ts ".data := rfl

/-- C7: for every non-SNAPSHOT Aspen read request that reaches query
construction with a positive whole-second interval (reader types INT and
the aggregates MIN/MAX/RNG/AVG/VAR/STD), the generated fragments contain
the period filter `AND (period = secs * 10)`; for ReaderType RAW (alias
SAMPLED) the generated query contains no period filter at all. -/
theorem c7_aspen_period_filter (tag : String) (mapdef : Option Mapdef)
    (st et : Int) (secs : Int) (get_status : Bool) :
    (∀ read_type ∈ [ReaderType.INT, ReaderType.MIN, ReaderType.MAX,
        ReaderType.RNG, ReaderType.AVG, ReaderType.VAR, ReaderType.STD],
       0 < secs →
       ∃ frags, AspenHandlerODBC.generate_read_query_fragments tag mapdef
           (some st) (some et) secs read_type get_status = .ok frags
         ∧ ("AND (period = " ++ toString (secs * 10) ++ ")") ∈ frags)
  ∧ (∃ frags, AspenHandlerODBC.generate_read_query_fragments tag mapdef
        (some st) (some et) secs ReaderType.RAW get_status = .ok frags
      ∧ ∀ p : Int, ("AND (period = " ++ toString p ++ ")") ∉ frags) := by
  constructor
  · intro read_type hrt hpos
    simp only [List.mem_cons, List.not_mem_nil, or_false] at hrt
    rcases hrt with rfl | rfl | rfl | rfl | rfl | rfl | rfl <;>
      simp [show ¬ secs ≤ 0 from by omega, ReaderType.SAMPLED, ReaderType.BAD,
        AspenHandlerODBC.generate_read_query_fragments]
  · cases mapdef with
    | none =>
      cases get_status with
      | false =>
        refine ⟨["SELECT ISO8601(ts) AS \"time\", value AS \"value\"",
          "FROM history", "WHERE name = " ++ pyRepr tag,
          "AND (request = 4)",
          "AND (ts BETWEEN " ++ pyRepr (fmtTime st) ++ " AND "
            ++ pyRepr (fmtTime et) ++ ")",
          "ORDER BY ts"], rfl, ?_⟩
        intro p
        simp only [List.mem_cons, List.not_mem_nil, or_false, not_or]
        refine ⟨?_, ?_, ?_, ?_, ?_, ?_⟩ <;>
          exact str_ne_of_take 8 (by
            simp only [take8_period, take8_where, take8_field, take8_between]
            decide)
      | true =>
        refine ⟨["SELECT ISO8601(ts) AS \"time\", value AS \"value\"",
          ", status AS \"status\"",
          "FROM history", "WHERE name = " ++ pyRepr tag,
          "AND (request = 4)",
          "AND (ts BETWEEN " ++ pyRepr (fmtTime st) ++ " AND "
            ++ pyRepr (fmtTime et) ++ ")",
          "ORDER BY ts"], rfl, ?_⟩
        intro p
        simp only [List.mem_cons, List.not_mem_nil, or_false, not_or]
        refine ⟨?_, ?_, ?_, ?_, ?_, ?_, ?_⟩ <;>
          exact str_ne_of_take 8 (by
            simp only [take8_period, take8_where, take8_field, take8_between]
            decide)
    | some m =>
      cases get_status with
      | false =>
        refine ⟨["SELECT ISO8601(ts) AS \"time\", value AS \"value\"",
          "FROM history", "WHERE name = " ++ pyRepr tag,
          "AND FIELD_ID = FT(" ++ pyRepr m.MAP_HistoryValue ++ ")",
          "AND (request = 4)",
          "AND (ts BETWEEN " ++ pyRepr (fmtTime st) ++ " AND "
            ++ pyRepr (fmtTime et) ++ ")",
          "ORDER BY ts"], rfl, ?_⟩
        intro p
        simp only [List.mem_cons, List.not_mem_nil, or_false, not_or]
        refine ⟨?_, ?_, ?_, ?_, ?_, ?_, ?_⟩ <;>
          exact str_ne_of_take 8 (by
            simp only [take8_period, take8_where, take8_field, take8_between]
            decide)
      | true =>
        refine ⟨["SELECT ISO8601(ts) AS \"time\", value AS \"value\"",
          ", status AS \"status\"",
          "FROM history", "WHERE name = " ++ pyRepr tag,
          "AND FIELD_ID = FT(" ++ pyRepr m.MAP_HistoryValue ++ ")",
          "AND (request = 4)",
          "AND (ts BETWEEN " ++ pyRepr (fmtTime st) ++ " AND "
            ++ pyRepr (fmtTime et) ++ ")",
          "ORDER BY ts"], rfl, ?_⟩
        intro p
        simp only [List.mem_cons, List.not_mem_nil, or_false, not_or]
        refine ⟨?_, ?_, ?_, ?_, ?_, ?_, ?_, ?_⟩ <;>
          exact str_ne_of_take 8 (by
            simp only [take8_period, take8_where, take8_field, take8_between]
            decide)

/-- C7 (witness): the theorem applied at a concrete input — an INT read
with a 60-second interval carries the filter `AND (period = 600)`, and a
RAW read carries no period filter. -/
theorem c7_witness :
    (ReaderType.INT ∈ [ReaderType.INT, ReaderType.MIN, ReaderType.MAX,
        ReaderType.RNG, ReaderType.AVG, ReaderType.VAR, ReaderType.STD])
  ∧ (0 < (60 : Int))
  ∧ (∃ frags, AspenHandlerODBC.generate_read_query_fragments "T" none
        (some 0) (some 100) 60 ReaderType.INT false = .ok frags
      ∧ ("AND (period = " ++ toString ((60 : Int) * 10) ++ ")") ∈ frags)
  ∧ (∃ frags, AspenHandlerODBC.generate_read_query_fragments "T" none
        (some 0) (some 100) 60 ReaderType.RAW false = .ok frags
      ∧ ∀ p : Int, ("AND (period = " ++ toString p ++ ")") ∉ frags) :=
  ⟨by decide, by decide,
   (c7_aspen_period_filter "T" none 0 100 60 false).1 ReaderType.INT
     (by decide) (by decide),
   (c7_aspen_period_filter "T" none 0 100 60 false).2⟩

/-! ## Claim C9 -/

theorem star_free_like {a b : String} (s : String) (ha : '*' ∉ a.data)
    (hb : '*' ∉ b.data) : '*' ∉ (a ++ replaceStar s ++ b).data :=
  star_free_append (star_free_append ha (star_not_mem_replaceStar s)) hb

set_option maxRecDepth 4000 in
/-- C9: for every search call on either backend whose tag pattern contains
`*` (and whose mapping metadata itself contains no literal `*`), the
generated search queries contain the SQL wildcard `%` in its place and
never the literal `*`; in particular `search("AB*", None)` builds a query
containing `LIKE 'AB%'` on both backends. -/
theorem c9_wildcard_translation (p : String) (tagP descP : Option String)
    (m : SearchMapdef)
    (hm1 : '*' ∉ m.MAP_Description.data) (hm2 : '*' ∉ m.tagname.data)
    (hm3 : ∀ r, m.MAP_DefinitionRecord = some r → '*' ∉ r.data)
    (hp : '*' ∈ p.data) :
    (∃ query, AspenHandlerODBC.search_generated_query (some p) = .ok query
      ∧ '*' ∉ query.data)
  ∧ '%' ∈ (replaceStar p).data
  ∧ '*' ∉ (PIHandlerODBC.generate_search_query tagP descP).data
  ∧ (∀ query, AspenHandlerODBC._generate_query_search_tag m
       (Option.map replaceStar descP) = some query → '*' ∉ query.data)
  ∧ (∃ pre suf, AspenHandlerODBC.search_generated_query (some "AB*")
       = .ok (pre ++ "LIKE 'AB%'" ++ suf))
  ∧ (∃ pre suf, PIHandlerODBC.generate_search_query (some "AB*") none
       = pre ++ "LIKE 'AB%'" ++ suf) := by
  refine ⟨?_, percent_mem_replaceStar hp, ?_, ?_, ?_, ?_⟩
  · refine ⟨_, rfl, ?_⟩
    simp only [AspenHandlerODBC._generate_query_get_mapdef_for_search]
    apply star_free_joinSp
    intro x hx
    simp at hx
    rcases hx with rfl | rfl | rfl | rfl | rfl | rfl | rfl
    · decide
    · decide
    · decide
    · decide
    · decide
    · split
      · exact star_free_like p (by decide) (by decide)
      · exact star_free_like p (by decide) (by decide)
    · decide
  · cases tagP <;> cases descP <;>
    · simp only [PIHandlerODBC.generate_search_query,
        PIHandlerODBC.generate_search_query_fragments]
      apply star_free_joinSp
      intro x hx
      simp at hx
      first
      | (rcases hx with rfl | rfl | rfl | rfl
         · decide
         · exact star_free_like _ (by decide) (by decide)
         · decide
         · exact star_free_like _ (by decide) (by decide))
      | (rcases hx with rfl | rfl
         · decide
         · exact star_free_like _ (by decide) (by decide))
      | (subst hx; decide)
  · intro query hq
    rcases hdef : m.MAP_DefinitionRecord with _ | r
    · simp only [AspenHandlerODBC._generate_query_search_tag, hdef] at hq
      exact Option.noConfusion hq
    · have hr : '*' ∉ r.data := hm3 r hdef
      cases descP with
      | none =>
        simp only [AspenHandlerODBC._generate_query_search_tag, hdef,
          Option.map_none', Option.some_inj] at hq
        subst hq
        apply star_free_joinSp
        intro x hx
        simp at hx
        rcases hx with rfl | rfl | rfl
        · exact star_free_append (star_free_append (by decide) hm1) (by decide)
        · exact star_free_append (by decide) hr
        · exact star_free_append (star_free_append (by decide) hm2) (by decide)
      | some dsc =>
        simp only [AspenHandlerODBC._generate_query_search_tag, hdef,
          Option.map_some', Option.some_inj] at hq
        subst hq
        apply star_free_joinSp
        intro x hx
        simp at hx
        rcases hx with rfl | rfl | rfl | rfl
        · exact star_free_append (star_free_append (by decide) hm1) (by decide)
        · exact star_free_append (by decide) hr
        · exact star_free_append (star_free_append (by decide) hm2) (by decide)
        · exact star_free_append
            (star_free_append
              (star_free_append (star_free_append (by decide) hm1) (by decide))
              (star_not_mem_replaceStar dsc))
            (by decide)
  · exact ⟨"SELECT DISTINCT a.name as tagname, m.NAME, m.MAP_DefinitionRecord, m.MAP_IsDefault, m.MAP_Description, m.MAP_Units, m.MAP_Base, m.MAP_Range FROM all_records a LEFT JOIN atmapdef m ON a.definition = m.MAP_DefinitionRecord WHERE a.name ",
          " AND m.MAP_IsDefault = 'TRUE'", by rfl⟩
  · exact ⟨"SELECT tag, descriptor as description FROM pipoint.pipoint2 WHERE tag ",
          "", by rfl⟩


/-- C9 (witness): the theorem applied at a concrete input — the pattern
`AB*` on both backends. -/
theorem c9_witness :
    ('*' ∈ "AB*".data)
  ∧ ('%' ∈ (replaceStar "AB*").data)
  ∧ ('*' ∉ (PIHandlerODBC.generate_search_query (some "AB*") none).data) :=
  ⟨by decide,
   (c9_wildcard_translation "AB*" (some "AB*") none ⟨"T1", some "rec", "dcol"⟩
     (by decide) (by decide)
     (by intro r hr; injection hr with h; subst h; decide) (by decide)).2.1,
   (c9_wildcard_translation "AB*" (some "AB*") none ⟨"T1", some "rec", "dcol"⟩
     (by decide) (by decide)
     (by intro r hr; injection hr with h; subst h; decide) (by decide)).2.2.1⟩
